import Mathlib

/-!
Shallow embedding of `pwait` (src/pwait.c): a tool that attaches to a
running process via ptrace, waits for its exit event, and reports the
real exit code.  OS interactions (capability API, ptrace, waitpid) are
modelled by explicit oracles/result lists; each Lean definition mirrors
one C function.
-/

namespace Pwait

/-- `SIGTRAP` on Linux. -/
def SIGTRAP : Nat := 5

/-- `PTRACE_EVENT_EXIT` on Linux. -/
def PTRACE_EVENT_EXIT : Nat := 6

/-- `SIGINT` on Linux. -/
def SIGINT : Nat := 2

/-- `SIGTERM` on Linux. -/
def SIGTERM : Nat := 15

/-- `CLD_TRAPPED`: `si_code` value meaning a traced child has trapped. -/
def CLD_TRAPPED : Nat := 4

/-- `CLD_STOPPED`: `si_code` value for a job-control stop. -/
def CLD_STOPPED : Nat := 5

/-- `CLD_EXITED`: `si_code` value for a normal exit. -/
def CLD_EXITED : Nat := 1

/-- `CLD_KILLED`: `si_code` value for death by signal. -/
def CLD_KILLED : Nat := 2

/-- src/pwait.c line 19: `#define PTRACE_EXIT_SIGINFO_STATUS (SIGTRAP | (PTRACE_EVENT_EXIT << 8))`. -/
def PTRACE_EXIT_SIGINFO_STATUS : Nat := SIGTRAP ||| (PTRACE_EVENT_EXIT <<< 8)

/-- glibc `WIFSTOPPED(status)`: `(status & 0xff) == 0x7f`. -/
def WIFSTOPPED (status : Nat) : Bool := status % 256 == 0x7f

/-- One result of a `waitpid` call: either the call failed (returned -1),
or it returned a process id together with a raw status word. -/
inductive WaitpidResult where
  | err : WaitpidResult
  | ok (rpid : Int) (status : Nat) : WaitpidResult
deriving DecidableEq, Repr

/-- src/pwait.c lines 151-168, `wait_using_waitpid`: loop on `waitpid(pid, &status, 0)`.
Returns `FALSE` if the call errors (-1) or reports a pid other than the target;
returns `TRUE` when the status is a stop whose value shifted right by 8 equals
`PTRACE_EXIT_SIGINFO_STATUS`; otherwise loops.  The list holds the successive
results the OS hands back; `none` means the list ran out while the C loop would
still be blocked in `waitpid`. -/
def wait_using_waitpid (pid : Int) : List WaitpidResult → Option Bool
  | [] => none
  | .err :: _ => some false
  | .ok rpid status :: rest =>
    if rpid ≠ pid then some false
    else if WIFSTOPPED status && (status >>> 8 == PTRACE_EXIT_SIGINFO_STATUS) then some true
    else wait_using_waitpid pid rest

/-- The fields of `siginfo_t` that `wait_using_waitid` reads. -/
structure Siginfo where
  si_pid : Int
  si_code : Nat
  si_status : Nat
deriving DecidableEq, Repr

/-- One result of a `waitid(P_PID, pid, &siginfo, WEXITED)` call: either the
call returned nonzero (failure), or it filled in the `siginfo` record. -/
inductive WaitidResult where
  | err : WaitidResult
  | ok (info : Siginfo) : WaitidResult
deriving DecidableEq, Repr

/-- src/pwait.c lines 170-187, `wait_using_waitid`: loop on `waitid`.  The C code
zeroes `si_pid` before each call and treats a still-zero `si_pid` as failure;
returns `TRUE` when `si_code == CLD_TRAPPED` and `si_status` equals
`PTRACE_EXIT_SIGINFO_STATUS`; otherwise loops. -/
def wait_using_waitid (pid : Int) : List WaitidResult → Option Bool
  | [] => none
  | .err :: _ => some false
  | .ok info :: rest =>
    if info.si_pid = 0 then some false
    else if info.si_code == CLD_TRAPPED && info.si_status == PTRACE_EXIT_SIGINFO_STATUS then some true
    else wait_using_waitid pid rest

/-- `CAP_SET` / `CAP_CLEAR` of the libcap flag-value type. -/
inductive CapFlagValue where
  | set : CapFlagValue
  | clear : CapFlagValue
deriving DecidableEq, Repr

/-- Oracle for the libcap calls made by `prepare_capabilities`, in program
order: `CAP_IS_SUPPORTED`, `cap_get_proc`, `cap_get_flag(CAP_EFFECTIVE)`,
`cap_get_flag(CAP_PERMITTED)`, `cap_set_flag`, `cap_set_proc`, the re-check
`cap_get_flag(CAP_EFFECTIVE)`, and `cap_free`.  `none` on a flag query means
the call returned -1. -/
structure CapOracle where
  supported : Bool
  getProcOk : Bool
  getEffective : Option CapFlagValue
  getPermitted : Option CapFlagValue
  setFlagOk : Bool
  setProcOk : Bool
  recheckEffective : Option CapFlagValue
  freeOk : Bool
deriving DecidableEq, Repr

/-- The externally visible libcap operations, used to record the order in
which `prepare_capabilities` performs its steps. -/
inductive CapOp where
  | checkSupported
  | getProc
  | getEffective
  | getPermitted
  | raiseFlag
  | setProc
  | recheckEffective
  | free
deriving DecidableEq, Repr

/-- src/pwait.c lines 63-149, `prepare_capabilities`: best-effort acquisition of
`CAP_SYS_PTRACE`.  Returns the C function's boolean result paired with the
sequence of libcap operations it performed.  Mirrors the source exactly:
the immediate-success path (effective flag already set) returns `TRUE`
without freeing; the not-permitted path returns `FALSE` without freeing;
every other failure path frees and returns `FALSE`; on the full path the
final result is `cap_sys_ptrace_status == CAP_SET`, but only if the final
`cap_free_safe` did not fail (line 143 returns `FALSE` when it does). -/
def prepare_capabilities (o : CapOracle) : Bool × List CapOp :=
  if !o.supported then (false, [.checkSupported])
  else if !o.getProcOk then (false, [.checkSupported, .getProc])
  else match o.getEffective with
  | none => (false, [.checkSupported, .getProc, .getEffective, .free])
  | some eff =>
    if eff = .set then (true, [.checkSupported, .getProc, .getEffective])
    else match o.getPermitted with
    | none => (false, [.checkSupported, .getProc, .getEffective, .getPermitted, .free])
    | some perm =>
      if perm = .clear then (false, [.checkSupported, .getProc, .getEffective, .getPermitted])
      else if !o.setFlagOk then
        (false, [.checkSupported, .getProc, .getEffective, .getPermitted, .raiseFlag, .free])
      else if !o.setProcOk then
        (false, [.checkSupported, .getProc, .getEffective, .getPermitted, .raiseFlag, .setProc, .free])
      else match o.recheckEffective with
      | none =>
        (false, [.checkSupported, .getProc, .getEffective, .getPermitted, .raiseFlag, .setProc,
          .recheckEffective, .free])
      | some eff2 =>
        if !o.freeOk then
          (false, [.checkSupported, .getProc, .getEffective, .getPermitted, .raiseFlag, .setProc,
            .recheckEffective, .free])
        else
          (eff2 = .set, [.checkSupported, .getProc, .getEffective, .getPermitted, .raiseFlag, .setProc,
            .recheckEffective, .free])

/-- Conversion of a C `unsigned long` value (a natural number, here unbounded
but in practice below 2^64) to a C `int`: reduce modulo 2^32 and interpret the
result as a 32-bit two's-complement value. -/
def intOfULong (m : Nat) : Int :=
  let r : Nat := m % 2 ^ 32
  if r < 2 ^ 31 then (r : Int) else (r : Int) - 2 ^ 32

/-- src/pwait.c lines 192-201, `get_tracee_exit_status`: one
`ptrace(PTRACE_GETEVENTMSG, pid, NULL, &msg)` query.  `none` models the call
returning -1 (failure, C returns -1); `some m` models success with event
message `m`, and the C function returns `(int)m`. -/
def get_tracee_exit_status (eventMsg : Option Nat) : Int :=
  match eventMsg with
  | none => -1
  | some m => intOfULong m

/-- Externally visible actions of a `pwait` run, in the order they were
performed.  `attach` is the `PTRACE_SEIZE`/`PTRACE_ATTACH` call, `detach` the
`PTRACE_DETACH` issued by the signal handler (src/pwait.c lines 203-205),
`getEventMsg` the `PTRACE_GETEVENTMSG` query; the two handler actions are the
`sigaction` calls installing and restoring the SIGTERM/SIGINT handlers. -/
inductive Action where
  | capNegotiation
  | installHandlers
  | attach (pid : Int)
  | detach (pid : Int)
  | restoreHandlers
  | getEventMsg (pid : Int)
deriving DecidableEq, Repr

/-- What the main control flow observes while blocked in the wait step:
either a result handed back by `waitpid`, or the delivery of a termination
signal (SIGINT or SIGTERM) while blocked, which runs the `detach` handler
and makes the blocked `waitpid` call return -1 (`EINTR`). -/
inductive WaitObs where
  | intr : WaitObs
  | result (r : WaitpidResult) : WaitObs
deriving DecidableEq, Repr

/-- The wait step as main experiences it: `wait_using_waitpid` plus the
asynchronous signal path.  On `intr` the installed handler performs
`ptrace(PTRACE_DETACH, pid, 0, 0)` and the interrupted `waitpid` returns -1,
so the loop returns `FALSE`.  Also returns the ptrace actions performed. -/
def waitLoopWithSignals (pid : Int) : List WaitObs → Option Bool × List Action
  | [] => (none, [])
  | .intr :: _ => (some false, [.detach pid])
  | .result .err :: _ => (some false, [])
  | .result (.ok rpid status) :: rest =>
    if rpid ≠ pid then (some false, [])
    else if WIFSTOPPED status && (status >>> 8 == PTRACE_EXIT_SIGINFO_STATUS) then (some true, [])
    else waitLoopWithSignals pid rest

/-- The parse of `argv[1]` by `strtol(argv[1], &endptr, 0)`: `nonNumeric`
models `endptr == argv[1]` (no digits consumed); `numeric n` models a parse
yielding `n` (as stored into the `pid_t` variable `pid`). -/
inductive ParsedArg where
  | nonNumeric : ParsedArg
  | numeric (n : Int) : ParsedArg
deriving DecidableEq, Repr

/-- Outcome of a completed `pwait` run: the process exit code, the success
line printed to stdout (`some (pid, code)` models
`printf("Process %d exited with code %d\n", pid, code)`; `none` means no
success line), and the recorded actions. -/
structure RunResult where
  exitCode : Nat
  successLine : Option (Int × Int)
  actions : List Action
deriving DecidableEq, Repr

/-- src/pwait.c lines 207-270, `main`.  `arg = none` models `argc < 2`.
`attachOk` is the result of the `ptrace(PTRACE_SEIZE, ...)` call, `waits` the
stream of observations while blocked in the wait step, `eventMsg` the
`PTRACE_GETEVENTMSG` oracle.  Returns `none` when the run would still be
blocked in `waitpid` (observation list exhausted without a decision).
Mirrors the source order: usage check, capability negotiation, argument
parse, pid validation, handler installation, attach, wait, handler
restoration (success path only), extraction, report. -/
def pwaitMain (arg : Option ParsedArg) (cap : CapOracle) (attachOk : Bool)
    (waits : List WaitObs) (eventMsg : Option Nat) : Option RunResult :=
  match arg with
  | none => some ⟨2, none, []⟩
  | some a =>
    if !(prepare_capabilities cap).1 then some ⟨1, none, [.capNegotiation]⟩
    else match a with
    | .nonNumeric => some ⟨1, none, [.capNegotiation]⟩
    | .numeric pid =>
      if pid < 1 then some ⟨1, none, [.capNegotiation]⟩
      else if !attachOk then some ⟨1, none, [.capNegotiation, .installHandlers, .attach pid]⟩
      else match waitLoopWithSignals pid waits with
      | (none, _) => none
      | (some false, waitActs) =>
        some ⟨1, none, [.capNegotiation, .installHandlers, .attach pid] ++ waitActs⟩
      | (some true, waitActs) =>
        let pre := [Action.capNegotiation, .installHandlers, .attach pid] ++ waitActs
          ++ [.restoreHandlers, .getEventMsg pid]
        let code := get_tracee_exit_status eventMsg
        if code = -1 then some ⟨1, none, pre⟩
        else some ⟨0, some (pid, code), pre⟩

/-- The exit-event test of the waitpid loop: the status is a stop
(`WIFSTOPPED`) and its value shifted right by 8 equals
`PTRACE_EXIT_SIGINFO_STATUS`. -/
def isExitEvent (status : Nat) : Bool :=
  WIFSTOPPED status && (status >>> 8 == PTRACE_EXIT_SIGINFO_STATUS)

/-- A waitpid result the loop discards and keeps waiting on: reported pid is
the target but the status is not the exit event. -/
def isDiscardable (pid : Int) : WaitpidResult → Bool
  | .err => false
  | .ok rpid status => rpid == pid && !isExitEvent status

/-- A waitpid result that is an unrecoverable error: the call returned -1, or
it reported a process id other than the target. -/
def isTerminalError (pid : Int) : WaitpidResult → Bool
  | .err => true
  | .ok rpid _ => rpid != pid

/-- A waitpid result that confirms the exit event for the target. -/
def isConfirmedExit (pid : Int) : WaitpidResult → Bool
  | .err => false
  | .ok rpid status => rpid == pid && isExitEvent status

/-- C5: The waitpid-based wait loop returns only on (a) a confirmed
exit-event classification (a stopped status whose value shifted right by 8
equals `SIGTRAP ||| (PTRACE_EVENT_EXIT <<< 8)`), returning success, or (b) an
unrecoverable error (the wait call returning -1, or a returned process id
different from the target), returning failure; every observation before the
deciding one is a discarded stop on which the loop continued. -/
theorem waitpid_loop_returns_only_on_exit_or_error (pid : Int) (obs : List WaitpidResult)
    (b : Bool) (h : wait_using_waitpid pid obs = some b) :
    ∃ skipped r rest, obs = skipped ++ r :: rest
      ∧ (∀ x ∈ skipped, isDiscardable pid x = true)
      ∧ ((b = true ∧ isConfirmedExit pid r = true)
          ∨ (b = false ∧ isTerminalError pid r = true)) := by
  induction obs with
  | nil => simp [wait_using_waitpid] at h
  | cons head tail ih =>
    cases head with
    | err =>
      refine ⟨[], .err, tail, rfl, by simp, Or.inr ⟨?_, rfl⟩⟩
      have h2 : (some false : Option Bool) = some b := h
      simpa using h2.symm
    | ok rpid status =>
      have hdef : wait_using_waitpid pid (WaitpidResult.ok rpid status :: tail)
          = (if rpid ≠ pid then some false
             else if isExitEvent status = true then some true
             else wait_using_waitpid pid tail) := rfl
      rw [hdef] at h
      by_cases hpid : rpid = pid
      · rw [if_neg (fun hc => hc hpid)] at h
        by_cases hev : isExitEvent status = true
        · rw [if_pos hev] at h
          refine ⟨[], .ok rpid status, tail, rfl, by simp, Or.inl ⟨by simpa using h.symm, ?_⟩⟩
          simp [isConfirmedExit, hpid, hev]
        · rw [if_neg hev] at h
          obtain ⟨skipped, r, rest, heq, hskip, hdec⟩ := ih h
          refine ⟨.ok rpid status :: skipped, r, rest, by simp [heq], ?_, hdec⟩
          intro x hx
          rcases List.mem_cons.mp hx with hx1 | hx2
          · subst hx1
            simp only [Bool.not_eq_true] at hev
            simp [isDiscardable, hpid, hev]
          · exact hskip x hx2
      · rw [if_pos hpid] at h
        refine ⟨[], .ok rpid status, tail, rfl, by simp, Or.inr ⟨by simpa using h.symm, ?_⟩⟩
        simp [isTerminalError, hpid]

/-- Witness for C5: a run discarding one job-control stop and then seeing the
exit event `0x6057f = (PTRACE_EXIT_SIGINFO_STATUS << 8) | 0x7f`. -/
theorem waitpid_loop_returns_only_on_exit_or_error_witness :
    ∃ skipped r rest,
      ([WaitpidResult.ok 5 0x137f, WaitpidResult.ok 5 0x6057f] : List WaitpidResult)
        = skipped ++ r :: rest
      ∧ (∀ x ∈ skipped, isDiscardable 5 x = true)
      ∧ ((true = true ∧ isConfirmedExit 5 r = true)
          ∨ (true = false ∧ isTerminalError 5 r = true)) :=
  waitpid_loop_returns_only_on_exit_or_error 5
    [WaitpidResult.ok 5 0x137f, WaitpidResult.ok 5 0x6057f] true (by decide)

/-- An abstract kernel notification about the traced child, the common source
of what `waitpid` and `waitid` report.  `traceTrap status` is a ptrace stop
carrying the 16-bit word `status` (signal in the low byte, ptrace event code
in the high byte); `jobStop` a job-control stop by a real signal; `exited`
and `killed` terminations; `callError` a failure of the wait call itself. -/
inductive KernelNotif where
  | traceTrap (status : Nat)
  | jobStop (sig : Nat)
  | exited (code : Nat)
  | killed (sig : Nat)
  | callError
deriving DecidableEq, Repr

/-- How `waitpid` encodes a kernel notification for the target: a stop
(ptrace or job-control) is reported as `(x << 8) | 0x7f`, i.e. `x*256 + 0x7f`;
a normal exit as `code << 8`; a killing signal as the signal number. -/
def toWaitpid (pid : Int) : KernelNotif → WaitpidResult
  | .traceTrap status => .ok pid (status * 256 + 0x7f)
  | .jobStop sig => .ok pid (sig * 256 + 0x7f)
  | .exited code => .ok pid (code * 256)
  | .killed sig => .ok pid sig
  | .callError => .err

/-- How `waitid` encodes a kernel notification for the target: `si_pid` is the
target, `si_code` classifies the notification, `si_status` carries the raw
word (ptrace-stop word, stop/kill signal, or exit code). -/
def toWaitid (pid : Int) : KernelNotif → WaitidResult
  | .traceTrap status => .ok ⟨pid, CLD_TRAPPED, status⟩
  | .jobStop sig => .ok ⟨pid, CLD_STOPPED, sig⟩
  | .exited code => .ok ⟨pid, CLD_EXITED, code⟩
  | .killed sig => .ok ⟨pid, CLD_KILLED, sig⟩
  | .callError => .err

/-- A kernel notification that the OS can actually produce: job-control and
killing signals are real signal numbers (1..64 on Linux, so below 65) and a
normal exit code fits in one byte. -/
def wellFormedNotif : KernelNotif → Bool
  | .jobStop sig => sig < 65
  | .killed sig => sig < 65
  | .exited code => code < 256
  | _ => true

/-- C6: the waitpid-based and the waitid-based wait strategies are
equivalent: run on the encodings of one and the same sequence of well-formed
kernel notifications for a positive target pid, they return identical
results — success exactly on the confirmed exit event
`PTRACE_EXIT_SIGINFO_STATUS`, failure exactly on a wait-call error, and both
keep looping on everything else. -/
theorem wait_strategies_equivalent (pid : Int) (ns : List KernelNotif)
    (hpid : 1 ≤ pid) (hwf : ∀ n ∈ ns, wellFormedNotif n = true) :
    wait_using_waitpid pid (ns.map (toWaitpid pid))
      = wait_using_waitid pid (ns.map (toWaitid pid)) := by
  induction ns with
  | nil => rfl
  | cons head tail ih =>
    have htail : ∀ n ∈ tail, wellFormedNotif n = true :=
      fun n hn => hwf n (List.mem_cons_of_mem _ hn)
    have hpid0 : ¬ (pid = 0) := by omega
    cases head with
    | traceTrap status =>
      have hstop : WIFSTOPPED (status * 256 + 0x7f) = true := by
        simp [WIFSTOPPED]
        omega
      have hshift : (status * 256 + 0x7f) >>> 8 = status := by
        rw [Nat.shiftRight_eq_div_pow]
        omega
      by_cases hs : status = PTRACE_EXIT_SIGINFO_STATUS
      · subst hs
        simp [toWaitpid, toWaitid, wait_using_waitpid, wait_using_waitid,
          hstop, hshift, hpid0]
      · simp [toWaitpid, toWaitid, wait_using_waitpid, wait_using_waitid,
          hstop, hshift, hs, hpid0, ih htail]
    | jobStop sig =>
      have hsig : sig < 65 := by
        simpa [wellFormedNotif] using hwf _ (List.mem_cons_self _ _)
      have hstop : WIFSTOPPED (sig * 256 + 0x7f) = true := by
        simp [WIFSTOPPED]
        omega
      have hshift : (sig * 256 + 0x7f) >>> 8 = sig := by
        rw [Nat.shiftRight_eq_div_pow]
        omega
      have hval : PTRACE_EXIT_SIGINFO_STATUS = 1541 := by decide
      have hne : ¬ (sig = PTRACE_EXIT_SIGINFO_STATUS) := by
        rw [hval]
        omega
      simp [toWaitpid, toWaitid, wait_using_waitpid, wait_using_waitid,
        hstop, hshift, hne, hpid0, CLD_STOPPED, CLD_TRAPPED, ih htail]
    | exited code =>
      have hstop : WIFSTOPPED (code * 256) = false := by
        simp [WIFSTOPPED]
      simp [toWaitpid, toWaitid, wait_using_waitpid, wait_using_waitid,
        hstop, hpid0, CLD_EXITED, CLD_TRAPPED, ih htail]
    | killed sig =>
      have hsig : sig < 65 := by
        simpa [wellFormedNotif] using hwf _ (List.mem_cons_self _ _)
      have hstop : WIFSTOPPED sig = false := by
        simp [WIFSTOPPED]
        omega
      simp [toWaitpid, toWaitid, wait_using_waitpid, wait_using_waitid,
        hstop, hpid0, CLD_KILLED, CLD_TRAPPED, ih htail]
    | callError =>
      simp [toWaitpid, toWaitid, wait_using_waitpid, wait_using_waitid]

/-- Witness for C6: both strategies, fed the encodings of a job-control stop
by SIGSTOP followed by the exit event, agree (and succeed). -/
theorem wait_strategies_equivalent_witness :
    wait_using_waitpid 1234
        (([KernelNotif.jobStop 19, KernelNotif.traceTrap 0x605]).map (toWaitpid 1234))
      = wait_using_waitid 1234
        (([KernelNotif.jobStop 19, KernelNotif.traceTrap 0x605]).map (toWaitid 1234)) :=
  wait_strategies_equivalent 1234 [KernelNotif.jobStop 19, KernelNotif.traceTrap 0x605]
    (by decide) (by decide)

/-- Unfolding equation for one non-error `waitpid` observation of the
signal-aware wait loop. -/
theorem waitLoopWithSignals_cons_ok (pid rpid : Int) (status : Nat) (rest : List WaitObs) :
    waitLoopWithSignals pid (.result (.ok rpid status) :: rest)
      = (if rpid ≠ pid then (some false, [])
         else if isExitEvent status = true then (some true, [])
         else waitLoopWithSignals pid rest) := rfl

/-- The wait loop passes over any prefix of discardable observations. -/
theorem waitLoopWithSignals_skip (pid : Int) (pre : List WaitpidResult) (rest : List WaitObs)
    (hpre : ∀ r ∈ pre, isDiscardable pid r = true) :
    waitLoopWithSignals pid (pre.map .result ++ rest) = waitLoopWithSignals pid rest := by
  induction pre with
  | nil => rfl
  | cons head tail ih =>
    have hh := hpre head (List.mem_cons_self _ _)
    cases head with
    | err => simp [isDiscardable] at hh
    | ok rpid status =>
      simp only [isDiscardable, Bool.and_eq_true, beq_iff_eq, Bool.not_eq_true'] at hh
      obtain ⟨h1, h2⟩ := hh
      show waitLoopWithSignals pid (.result (.ok rpid status) :: (tail.map .result ++ rest)) = _
      rw [waitLoopWithSignals_cons_ok, if_neg (fun hc => hc h1), if_neg (by simp [h2])]
      exact ih (fun r hr => hpre r (List.mem_cons_of_mem _ hr))

/-- The only ptrace action the wait step itself can perform is the handler's
detach. -/
theorem waitLoopWithSignals_acts (pid : Int) (l : List WaitObs) :
    (waitLoopWithSignals pid l).2 = [] ∨ (waitLoopWithSignals pid l).2 = [.detach pid] := by
  induction l with
  | nil => exact Or.inl rfl
  | cons head tail ih =>
    cases head with
    | intr => exact Or.inr rfl
    | result r =>
      cases r with
      | err => exact Or.inl rfl
      | ok rpid status =>
        rw [waitLoopWithSignals_cons_ok]
        by_cases h1 : rpid ≠ pid
        · rw [if_pos h1]; exact Or.inl rfl
        · rw [if_neg h1]
          by_cases h2 : isExitEvent status = true
          · rw [if_pos h2]; exact Or.inl rfl
          · rw [if_neg h2]; exact ih

/-- A convenient fully successful capability oracle: the effective set already
holds `CAP_SYS_PTRACE`. -/
def capOracleImmediate : CapOracle :=
  ⟨true, true, some .set, some .set, true, true, some .set, true⟩

/-- C1: for every positive target id the caller is privileged to trace (the
capability negotiation succeeds), a run that discards any unrelated stops and
then observes the exit event with event message `k` (0 ≤ k ≤ 255, the
tracee's exit code) prints the success line `Process <pid> exited with code
<k>` reporting exactly `k`, and the program exits 0.  The content of the
event message is modelled from the spec: for a confirmed exit event it holds
the target's true exit status. -/
theorem run_reports_exit_code (n : Int) (k : Nat) (cap : CapOracle)
    (pre : List WaitpidResult) (status : Nat)
    (hn : 1 ≤ n) (hk : k ≤ 255)
    (hcap : (prepare_capabilities cap).1 = true)
    (hpre : ∀ r ∈ pre, isDiscardable n r = true)
    (hev : isExitEvent status = true) :
    pwaitMain (some (.numeric n)) cap true
        (pre.map .result ++ [.result (.ok n status)]) (some k)
      = some ⟨0, some (n, (k : Int)),
          [.capNegotiation, .installHandlers, .attach n, .restoreHandlers, .getEventMsg n]⟩ := by
  have hwait : waitLoopWithSignals n (pre.map .result ++ [.result (.ok n status)])
      = (some true, []) := by
    rw [waitLoopWithSignals_skip n pre _ hpre, waitLoopWithSignals_cons_ok,
      if_neg (fun hc => hc rfl), if_pos hev]
  have hmsg : get_tracee_exit_status (some k) = (k : Int) := by
    simp only [get_tracee_exit_status, intOfULong]
    rw [Nat.mod_eq_of_lt (by omega), if_pos (by omega)]
  simp [pwaitMain, hcap, hwait, hmsg, (show ¬ n < 1 by omega),
    (show ¬ ((k : Int) = -1) by omega)]

/-- Witness for C1: pid 1234, one discarded SIGSTOP stop, exit event, exit
code 42. -/
theorem run_reports_exit_code_witness :
    pwaitMain (some (.numeric 1234)) capOracleImmediate true
        (([WaitpidResult.ok 1234 0x137f]).map .result ++ [.result (.ok 1234 0x6057f)]) (some 42)
      = some ⟨0, some (1234, (42 : Int)),
          [.capNegotiation, .installHandlers, .attach 1234, .restoreHandlers,
            .getEventMsg 1234]⟩ :=
  run_reports_exit_code 1234 42 capOracleImmediate [WaitpidResult.ok 1234 0x137f] 0x6057f
    (by decide) (by decide) (by decide) (by decide) (by decide)

/-- C4: a termination signal delivered while blocked in the wait step (after
any number of discarded stops) makes the handler detach from the target, and
the run completes — no hang — with exit code 1 and no success line. -/
theorem interrupted_wait_detaches_and_fails (n : Int) (cap : CapOracle)
    (pre : List WaitpidResult) (msg : Option Nat)
    (hn : 1 ≤ n) (hcap : (prepare_capabilities cap).1 = true)
    (hpre : ∀ r ∈ pre, isDiscardable n r = true) :
    pwaitMain (some (.numeric n)) cap true (pre.map .result ++ [.intr]) msg
      = some ⟨1, none, [.capNegotiation, .installHandlers, .attach n, .detach n]⟩ := by
  have hwait : waitLoopWithSignals n (pre.map .result ++ [.intr])
      = (some false, [.detach n]) := by
    rw [waitLoopWithSignals_skip n pre _ hpre]
    rfl
  simp [pwaitMain, hcap, hwait, (show ¬ n < 1 by omega)]

/-- Witness for C4: pid 9, one discarded stop, then SIGINT/SIGTERM delivery;
the run detaches and fails with exit code 1. -/
theorem interrupted_wait_detaches_and_fails_witness :
    pwaitMain (some (.numeric 9)) capOracleImmediate true
        (([WaitpidResult.ok 9 0x137f]).map .result ++ [.intr]) (some 42)
      = some ⟨1, none, [.capNegotiation, .installHandlers, .attach 9, .detach 9]⟩ :=
  interrupted_wait_detaches_and_fails 9 capOracleImmediate [WaitpidResult.ok 9 0x137f]
    (some 42) (by decide) (by decide) (by decide)

/-- Counterexample to C2 as stated: with a non-numeric first argument (and a
fully privileged oracle) the program exits with code 1, not 2 — src/pwait.c
line 225 returns 1 on the `argv[1] == endptr` path. -/
theorem nonnumeric_arg_exits_one_not_two :
    pwaitMain (some .nonNumeric) capOracleImmediate true [] none
      = some ⟨1, none, [.capNegotiation]⟩ ∧ (1 : Nat) ≠ 2 := by
  constructor
  · rfl
  · decide

/-- C2 (amended): for every invocation whose first argument is non-numeric,
the program exits with code 1 (not 2), and performs no attach attempt — the
only recorded action is the capability negotiation, which runs before the
argument is parsed. -/
theorem nonnumeric_arg_fails_without_attach (cap : CapOracle) (attachOk : Bool)
    (waits : List WaitObs) (msg : Option Nat) :
    pwaitMain (some .nonNumeric) cap attachOk waits msg
      = some ⟨1, none, [.capNegotiation]⟩ := by
  cases h : (prepare_capabilities cap).1 <;> simp [pwaitMain, h]

/-- Counterexample to C3 as stated: for id 0 (and a fully privileged oracle)
the program exits with code 1, not 2, and the capability-negotiation step has
been executed — src/pwait.c calls `prepare_capabilities` (line 218) before
parsing the argument (line 222), and returns 1 (not 2) on the `pid < 1` path
(line 229). -/
theorem zero_pid_exits_one_after_negotiation :
    pwaitMain (some (.numeric 0)) capOracleImmediate true [] none
      = some ⟨1, none, [.capNegotiation]⟩ ∧ (1 : Nat) ≠ 2
      ∧ Action.capNegotiation ∈ [Action.capNegotiation] := by
  refine ⟨rfl, by decide, by decide⟩

/-- C3 (amended): for every invocation whose first argument parses to id 0 or
a negative id, the program exits with code 1 (not 2), the capability
negotiation having already run (its action is always recorded), and no attach
is attempted. -/
theorem nonpositive_pid_fails_after_negotiation (n : Int) (cap : CapOracle)
    (attachOk : Bool) (waits : List WaitObs) (msg : Option Nat) (hn : n < 1) :
    pwaitMain (some (.numeric n)) cap attachOk waits msg
      = some ⟨1, none, [.capNegotiation]⟩ := by
  cases h : (prepare_capabilities cap).1 <;> simp [pwaitMain, h, hn]

/-- Witness for C3 (amended): id 0 with a fully privileged oracle. -/
theorem nonpositive_pid_fails_after_negotiation_witness :
    pwaitMain (some (.numeric 0)) capOracleImmediate true [] (some 7)
      = some ⟨1, none, [.capNegotiation]⟩ :=
  nonpositive_pid_fails_after_negotiation 0 capOracleImmediate true [] (some 7) (by decide)

/-- C8: whenever the capability negotiation fails to establish the trace
privilege, the run performs no attach (no ptrace action of any kind is
recorded) and exits with code 1, for any argument that got past the usage
check. -/
theorem failed_negotiation_prevents_attach (a : ParsedArg) (cap : CapOracle)
    (attachOk : Bool) (waits : List WaitObs) (msg : Option Nat)
    (hcap : (prepare_capabilities cap).1 = false) :
    pwaitMain (some a) cap attachOk waits msg = some ⟨1, none, [.capNegotiation]⟩ := by
  cases a <;> simp [pwaitMain, hcap]

/-- Witness for C8: an oracle on which `CAP_IS_SUPPORTED` fails. -/
theorem failed_negotiation_prevents_attach_witness :
    pwaitMain (some (.numeric 77))
        ⟨false, true, some .set, some .set, true, true, some .set, true⟩ true [] none
      = some ⟨1, none, [.capNegotiation]⟩ :=
  failed_negotiation_prevents_attach (.numeric 77)
    ⟨false, true, some .set, some .set, true, true, some .set, true⟩ true [] none (by decide)

/-- Counterexample to C9 as stated: in a run whose wait step returns with
failure (here a `waitpid` error), the handlers were installed and the wait
step returned, yet `restoreHandlers` is not among the run's actions —
src/pwait.c line 253 returns from `main` before the restoring `sigaction`
calls at lines 258-259. -/
theorem handlers_not_restored_on_wait_failure :
    pwaitMain (some (.numeric 9)) capOracleImmediate true [.result .err] none
      = some ⟨1, none, [.capNegotiation, .installHandlers, .attach 9]⟩
      ∧ Action.installHandlers
          ∈ [Action.capNegotiation, Action.installHandlers, Action.attach 9]
      ∧ Action.restoreHandlers
          ∉ [Action.capNegotiation, Action.installHandlers, Action.attach 9] := by
  refine ⟨rfl, by decide, by decide⟩

/-- C9 (amended): the SIGTERM/SIGINT handlers are restored exactly on the
success return path of the wait step; on every failure return (wait error,
wrong pid, or interruption) the program exits without restoring them. -/
theorem handlers_restored_iff_wait_succeeds (n : Int) (cap : CapOracle)
    (waits : List WaitObs) (msg : Option Nat)
    (hn : 1 ≤ n) (hcap : (prepare_capabilities cap).1 = true) :
    (∃ r, pwaitMain (some (.numeric n)) cap true waits msg = some r
        ∧ Action.restoreHandlers ∈ r.actions)
      ↔ (waitLoopWithSignals n waits).1 = some true := by
  have hn2 : ¬ n < 1 := by omega
  rcases hw : waitLoopWithSignals n waits with ⟨ob, acts⟩
  have hacts : acts = [] ∨ acts = [Action.detach n] := by
    have h0 := waitLoopWithSignals_acts n waits
    rw [hw] at h0
    exact h0
  cases ob with
  | none => simp [pwaitMain, hcap, hn2, hw]
  | some b =>
    cases b with
    | false =>
      simp only [pwaitMain, hcap, hn2, hw]
      rcases hacts with h | h <;> subst h <;> simp
    | true =>
      by_cases hm : get_tracee_exit_status msg = -1
      · simp [pwaitMain, hcap, hn2, hw, hm]
      · simp [pwaitMain, hcap, hn2, hw, hm]

/-- Witness for C9 (amended): a successful wait, where the handlers do get
restored. -/
theorem handlers_restored_iff_wait_succeeds_witness :
    (∃ r, pwaitMain (some (.numeric 9)) capOracleImmediate true
          [.result (.ok 9 0x6057f)] (some 3) = some r
        ∧ Action.restoreHandlers ∈ r.actions)
      ↔ (waitLoopWithSignals 9 [.result (.ok 9 0x6057f)]).1 = some true :=
  handlers_restored_iff_wait_succeeds 9 capOracleImmediate [.result (.ok 9 0x6057f)]
    (some 3) (by decide) (by decide)

/-- C10: the extraction step overloads -1 as error sentinel and data.  In a
run that reaches extraction: if the event message's int conversion equals -1,
the run is indistinguishable from one whose extraction query failed — exit
code 1, no success line; for every other message the int-converted raw value
is exactly what the success line reports. -/
theorem extraction_sentinel_overload (n : Int) (cap : CapOracle)
    (pre : List WaitpidResult) (status m : Nat)
    (hn : 1 ≤ n) (hcap : (prepare_capabilities cap).1 = true)
    (hpre : ∀ r ∈ pre, isDiscardable n r = true)
    (hev : isExitEvent status = true) :
    (intOfULong m = -1 →
        pwaitMain (some (.numeric n)) cap true
            (pre.map .result ++ [.result (.ok n status)]) (some m)
          = pwaitMain (some (.numeric n)) cap true
            (pre.map .result ++ [.result (.ok n status)]) none
        ∧ pwaitMain (some (.numeric n)) cap true
            (pre.map .result ++ [.result (.ok n status)]) (some m)
          = some ⟨1, none,
              [.capNegotiation, .installHandlers, .attach n, .restoreHandlers,
                .getEventMsg n]⟩)
    ∧ (intOfULong m ≠ -1 →
        pwaitMain (some (.numeric n)) cap true
            (pre.map .result ++ [.result (.ok n status)]) (some m)
          = some ⟨0, some (n, intOfULong m),
              [.capNegotiation, .installHandlers, .attach n, .restoreHandlers,
                .getEventMsg n]⟩) := by
  have hn2 : ¬ n < 1 := by omega
  have hwait : waitLoopWithSignals n (pre.map .result ++ [.result (.ok n status)])
      = (some true, []) := by
    rw [waitLoopWithSignals_skip n pre _ hpre, waitLoopWithSignals_cons_ok,
      if_neg (fun hc => hc rfl), if_pos hev]
  constructor
  · intro hm
    constructor
    · simp [pwaitMain, hcap, hn2, hwait, get_tracee_exit_status, hm]
    · simp [pwaitMain, hcap, hn2, hwait, get_tracee_exit_status, hm]
  · intro hm
    simp [pwaitMain, hcap, hn2, hwait, get_tracee_exit_status, hm]

/-- Witness for C10: event message `2^32 - 1`, whose int conversion is -1;
the run exits 1 with no success line exactly as if the query had failed. -/
theorem extraction_sentinel_overload_witness :
    (intOfULong (2 ^ 32 - 1) = -1 →
        pwaitMain (some (.numeric 1234)) capOracleImmediate true
            (([] : List WaitpidResult).map .result ++ [.result (.ok 1234 0x6057f)])
            (some (2 ^ 32 - 1))
          = pwaitMain (some (.numeric 1234)) capOracleImmediate true
            (([] : List WaitpidResult).map .result ++ [.result (.ok 1234 0x6057f)]) none
        ∧ pwaitMain (some (.numeric 1234)) capOracleImmediate true
            (([] : List WaitpidResult).map .result ++ [.result (.ok 1234 0x6057f)])
            (some (2 ^ 32 - 1))
          = some ⟨1, none,
              [.capNegotiation, .installHandlers, .attach 1234, .restoreHandlers,
                .getEventMsg 1234]⟩)
    ∧ (intOfULong (2 ^ 32 - 1) ≠ -1 →
        pwaitMain (some (.numeric 1234)) capOracleImmediate true
            (([] : List WaitpidResult).map .result ++ [.result (.ok 1234 0x6057f)])
            (some (2 ^ 32 - 1))
          = some ⟨0, some (1234, intOfULong (2 ^ 32 - 1)),
              [.capNegotiation, .installHandlers, .attach 1234, .restoreHandlers,
                .getEventMsg 1234]⟩) :=
  extraction_sentinel_overload 1234 capOracleImmediate [] 0x6057f (2 ^ 32 - 1)
    (by decide) (by decide) (by decide) (by decide)

/-- Position of each libcap operation in the order the claim specifies:
support check, effective check (after fetching the process capabilities),
permitted check, raise attempt (flag then proc), re-check, release. -/
def capOpIndex : CapOp → Nat
  | .checkSupported => 0
  | .getProc => 1
  | .getEffective => 2
  | .getPermitted => 3
  | .raiseFlag => 4
  | .setProc => 5
  | .recheckEffective => 6
  | .free => 7

/-- A trace of libcap operations follows the specified order: each performed
operation strictly precedes the next in the canonical sequence. -/
def capTraceOrdered (ops : List CapOp) : Prop :=
  List.Pairwise (fun a b => capOpIndex a < capOpIndex b) ops

instance (ops : List CapOp) : Decidable (capTraceOrdered ops) :=
  inferInstanceAs (Decidable (List.Pairwise _ ops))

/-- The claim's immediate-success condition: the capability is supported, the
process capabilities were fetched, and the effective set already shows
`CAP_SYS_PTRACE`. -/
def capImmediateSuccess (o : CapOracle) : Bool :=
  o.supported && o.getProcOk && (o.getEffective == some .set)

/-- The condition under which the negotiation reaches its final effective-set
re-check: no immediate success, permitted set allows the raise, and both
raise steps succeed. -/
def capReachedRecheck (o : CapOracle) : Bool :=
  o.supported && o.getProcOk && (o.getEffective == some .clear)
    && (o.getPermitted == some .set) && o.setFlagOk && o.setProcOk

/-- The claim's success condition (following its words): the immediate check,
or the final effective state after the raise, shows the capability set. -/
def capShownSet (o : CapOracle) : Bool :=
  capImmediateSuccess o
    || (capReachedRecheck o && (o.recheckEffective == some .set))

/-- Counterexample to C7 as stated: an oracle on which every check and the
raise succeed and the final effective state shows `CAP_SYS_PTRACE` set, yet
`prepare_capabilities` returns false, because the final `cap_free` fails —
src/pwait.c lines 143-145 return `FALSE` when freeing fails, a condition the
claim's biconditional omits. -/
theorem capability_result_not_final_state_alone :
    ¬ (((prepare_capabilities
          ⟨true, true, some .clear, some .set, true, true, some .set, false⟩).1 = true)
        ↔ capShownSet
            ⟨true, true, some .clear, some .set, true, true, some .set, false⟩ = true) := by
  decide

/-- C7 (amended): `prepare_capabilities` performs its libcap operations in the
specified order (every trace is strictly ordered along the canonical
sequence: support check, fetch, effective check, permitted check, raise,
re-check, release), and — reporting solely via its boolean result — returns
true exactly when the immediate-success check shows the capability, or the
re-check is reached, shows the capability set, and the final resource release
succeeds. -/
theorem capability_negotiation_order_and_result :
    ∀ o : CapOracle,
      capTraceOrdered (prepare_capabilities o).2
      ∧ ((prepare_capabilities o).1 = true
          ↔ (capImmediateSuccess o = true
              ∨ (capReachedRecheck o = true ∧ o.recheckEffective = some .set
                  ∧ o.freeOk = true))) := by
  intro o
  obtain ⟨s, g, e, p, sf, sp, r, f⟩ := o
  rcases e with _ | e <;> try cases e
  all_goals rcases p with _ | p <;> try cases p
  all_goals rcases r with _ | r <;> try cases r
  all_goals cases s <;> cases g <;> cases sf <;> cases sp <;> cases f <;> decide

end Pwait
